import Mathlib

/-!
# Verification of the Fibrous provider adapter
  (`meta_aggregation_api/providers/fibrous_v1/fibrous_provider.py`)

Shallow embedding of the adapter's data model and operations:
string case-folding and substring search model Python `str.lower` / `in`
(ASCII range, which covers every string the adapter compares); JSON bodies
are modelled by an inductive `JVal`; Python exceptions that the adapter can
raise or catch are the inductive `PyExc`; fallible code returns `Except`.
Binary64 (`float`) arithmetic, used by the adapter for `price` and
`slippage`, is modelled exactly over integers: a finite double is a dyadic
rational `m * 2 ^ e`, and rounding of a positive fraction to nearest-even
with a 53-bit significand is computed with integer division.
-/

/-! ## Python string primitives: `str.lower`, substring membership (`in`) -/

/-- ASCII lower-casing of one character, as Python `str.lower` acts on the
ASCII range (all strings compared by the adapter are ASCII). -/
def lowerStr (s : String) : String :=
  String.mk (s.data.map Char.toLower)

/-- `charsHasPfx n h` is true when `n` is a leading segment of `h`. -/
def charsHasPfx : List Char → List Char → Bool
  | [], _ => true
  | _ :: _, [] => false
  | a :: as, b :: bs => a == b && charsHasPfx as bs

/-- `charsHasSub n h` is true when `n` occurs contiguously inside `h`
(Python `n in h` for strings). -/
def charsHasSub : List Char → List Char → Bool
  | needle, [] => needle.isEmpty
  | needle, b :: bs => charsHasPfx needle (b :: bs) || charsHasSub needle bs

/-- Python `pat.lower() in hay.lower()`. -/
def strContainsCI (hay pat : String) : Bool :=
  charsHasSub (lowerStr pat).data (lowerStr hay).data

/-! ## JSON values and Python dict operations -/

/-- A parsed JSON value (what `ujson.loads` can produce). -/
inductive JVal where
  | str (s : String)
  | num (n : ℤ)
  | bool (b : Bool)
  | null
  | arr (xs : List JVal)
  | obj (fields : List (String × JVal))

/-- Python `d.get(k)`: first binding of `k` in the object, if any. -/
def jget : List (String × JVal) → String → Option JVal
  | [], _ => none
  | (k2, v) :: rest, k => if k2 == k then some v else jget rest k

/-- Python `d.get(k, default)`. -/
def jgetD (fs : List (String × JVal)) (k : String) (d : JVal) : JVal :=
  (jget fs k).getD d

/-- Python `d[k] = v`: overwrite the first binding of `k`, else append. -/
def setField : List (String × JVal) → String → JVal → List (String × JVal)
  | [], k, v => [(k, v)]
  | (k2, v2) :: rest, k, v =>
    if k2 == k then (k2, v) :: rest else (k2, v2) :: setField rest k v

/-- Python truthiness of a parsed JSON value. -/
def pyTruthy : JVal → Bool
  | .str s => !(s == "")
  | .num n => !(n == 0)
  | .bool b => b
  | .null => false
  | .arr xs => !xs.isEmpty
  | .obj fs => !fs.isEmpty

/-! ## The adapter's error taxonomy and the Python exceptions in play -/

/-- The `BaseAggregationProviderError` subclasses the adapter constructs
(from `meta_aggregation_api.utils.errors`). -/
inductive ErrClass where
  | insufficientLiquidity
  | estimation
  | aggregationProvider
deriving DecidableEq

/-- A constructed domain error: its class and the resolved message
(the provider name, url and context kwargs are carried unchanged and
irrelevant to the claims). -/
structure DomainError where
  cls : ErrClass
  msg : String
deriving DecidableEq

/-- `FIBROUS_ERRORS`: the ordered provider-specific pattern table
(Python dicts preserve insertion order). -/
def FIBROUS_ERRORS : List (String × ErrClass) :=
  [("insufficient liquidity", .insufficientLiquidity),
   ("insufficient balance", .insufficientLiquidity),
   ("cannot estimate", .estimation),
   ("no route found", .insufficientLiquidity)]

/-- The `message` attribute of an `aiohttp.ClientResponseError`: plain text,
or the structured payload `[data]` that `_make_request` attaches. -/
inductive CREMessage where
  | text (s : String)
  | payload (v : JVal)

/-- The Python exceptions raised or caught inside the adapter. -/
inductive PyExc where
  | clientResponseError (status : ℤ) (message : CREMessage)
  | timeoutError
  | serverDisconnected
  | valueError (msg : String)
  | typeError (msg : String)
  | attributeError (msg : String)
  | indexError (msg : String)

/-- `str(exception)` as far as classification can observe it. -/
def str_of_exc : PyExc → String
  | .clientResponseError s _ => "ClientResponseError " ++ toString s
  | .timeoutError => "TimeoutError"
  | .serverDisconnected => "Server disconnected"
  | .valueError m => m
  | .typeError m => m
  | .attributeError m => m
  | .indexError m => m

/-- Python built-in exception kinds (`ValueError`, `TypeError`, ...), as
opposed to the adapter's own domain-error taxonomy. -/
def PyExc.isBuiltinGeneric : PyExc → Bool
  | .valueError _ => true
  | .typeError _ => true
  | .attributeError _ => true
  | .indexError _ => true
  | _ => false

/-! ## Chain-to-endpoint resolution (`_get_api_base_url`) -/

def FIBROUS_API_BASE : String := "https://api.fibrous.finance/base"

def FIBROUS_API_SCROLL : String := "https://api.fibrous.finance/scroll"

def FIBROUS_API_HYPEREVM : String := "https://api.fibrous.finance/hyperevm"

/-- `CHAIN_ID_TO_API_BASE.get(chain_id)`. -/
def CHAIN_ID_TO_API_BASE (chain_id : ℤ) : Option String :=
  if chain_id = 8453 then some "base"
  else if chain_id = 534352 then some "scroll"
  else if chain_id = 999 then some "hyperevm"
  else none

/-- `FibrousProviderV1._get_api_base_url` (lines 80-104): unsupported chain
ids raise the built-in `ValueError`. -/
def fibrous_get_api_base_url (chain_id : ℤ) : Except PyExc String :=
  match CHAIN_ID_TO_API_BASE chain_id with
  | none =>
    .error (.valueError ("Fibrous does not support chain_id " ++ toString chain_id))
  | some _ =>
    if chain_id = 8453 then .ok FIBROUS_API_BASE
    else if chain_id = 534352 then .ok FIBROUS_API_SCROLL
    else if chain_id = 999 then .ok FIBROUS_API_HYPEREVM
    else .error (.valueError ("Fibrous does not support chain_id " ++ toString chain_id))

/-! ## The request executor (`_make_request`) -/

/-- The raw bytes of an upstream response body. -/
inductive RawBody where
  | empty
  | malformed (raw : String)
  | json (v : JVal)

/-- One outcome of the underlying HTTP call: a response with a status and a
body, a timeout, or a dropped connection. -/
inductive TransportEvent where
  | response (status : ℤ) (body : RawBody)
  | timeout
  | disconnected

/-- Line 150: `500 if e.status not in range(100, 600) else e.status`. -/
def normalize_status (s : ℤ) : ℤ :=
  if 100 ≤ s ∧ s < 600 then s else 500

/-- Line 151: `data['source'] = 'proxied Fibrous API'`; item assignment on a
non-dict JSON value raises `TypeError`. -/
def addSourceField : JVal → Except PyExc JVal
  | .obj fs => .ok (.obj (setField fs "source" (.str "proxied Fibrous API")))
  | _ => .error (.typeError "object does not support item assignment")

/-- `FibrousProviderV1._make_request` (lines 106-160): read the body; an
empty body returns `{}` (before any status check); `ujson.loads` raises
`ValueError` on bytes that are not JSON; `raise_for_status` raises for
status >= 400, and the handler re-raises a `ClientResponseError` with the
normalized status and `[data]` (with the `source` tag) as its message. -/
def make_request (ev : TransportEvent) : Except PyExc JVal :=
  match ev with
  | .timeout => .error .timeoutError
  | .disconnected => .error .serverDisconnected
  | .response status body =>
    match body with
    | .empty => .ok (.obj [])
    | .malformed raw => .error (.valueError ("Expected object or value: " ++ raw))
    | .json v =>
      if 400 ≤ status then
        match addSourceField v with
        | .error e => .error e
        | .ok v2 =>
          .error (.clientResponseError (normalize_status status) (.payload (.arr [v2])))
      else .ok v

/-! ## Exception classification (`handle_exception`) -/

/-- Lines 412-420: the message shown to the pattern table.  For a
`ClientResponseError` whose `message` is a list starting with a dict, prefer
that dict's `error` field, then `message`, then `str(exception)`; indexing
the empty list raises `IndexError`, and a non-string field value makes the
later `msg.lower()` raise `AttributeError`. -/
def extract_message (e : PyExc) : Except PyExc String :=
  match e with
  | .clientResponseError _ (.payload (.arr (first :: _))) =>
    match first with
    | .obj fs =>
      match jgetD fs "error" (jgetD fs "message" (.str (str_of_exc e))) with
      | .str s => .ok s
      | _ => .error (.attributeError "object has no attribute lower")
    | _ => .ok (str_of_exc e)
  | .clientResponseError _ (.payload (.arr [])) =>
    .error (.indexError "list index out of range")
  | _ => .ok (str_of_exc e)

/-- The upstream error body is message-extractable: its `error` field (or,
failing that, its `message` field) is absent or a string, so that
classification sees a string and does not itself raise. -/
def extractStrOk (fs : List (String × JVal)) : Bool :=
  match jget fs "error" with
  | some (.str _) => true
  | some _ => false
  | none =>
    match jget fs "message" with
    | some (.str _) => true
    | some _ => false
    | none => true

/-- Lines 422-427: scan the ordered pattern table case-insensitively; the
first matching pattern's class wins; no match falls back to
`AggregationProviderError`. -/
def findErrClass : List (String × ErrClass) → String → ErrClass
  | [], _ => .aggregationProvider
  | (pat, cls) :: rest, msg =>
    if strContainsCI msg pat then cls else findErrClass rest msg

/-- The provider-specific classification of a message string
(the loop of lines 422-427 plus error construction). -/
def fibrous_classify (msg : String) : DomainError :=
  ⟨findErrClass FIBROUS_ERRORS msg, msg⟩

/-- `FibrousProviderV1.handle_exception` (lines 390-437), parameterized by
the shared base classifier (`BaseProvider.handle_exception`, outside this
file's source): a base result is returned unchanged, otherwise the
provider-specific table classifies the extracted message. -/
def handle_exception_model (baseClassify : PyExc → Option DomainError)
    (e : PyExc) : Except PyExc DomainError :=
  match baseClassify e with
  | some d => .ok d
  | none =>
    match extract_message e with
    | .error e2 => .error e2
    | .ok msg => .ok (fibrous_classify msg)

/-! ## The adapter boundary of `get_swap_price` / `get_swap_quote` -/

/-- What crosses the adapter boundary on failure: a classified taxonomy
error, or a raw Python exception that escaped classification. -/
inductive Raised where
  | classified (d : DomainError)
  | raw (e : PyExc)

def Raised.isClassified : Raised → Bool
  | .classified _ => true
  | .raw _ => false

/-- The exception tuple of the `except` clause at lines 209-213:
`(ClientResponseError, asyncio.TimeoutError, ServerDisconnectedError)`. -/
def is_fetch_caught : PyExc → Bool
  | .clientResponseError _ _ => true
  | .timeoutError => true
  | .serverDisconnected => true
  | _ => false

/-- The fetch half of `get_swap_price` (lines 192-220): resolve the chain
(its `ValueError` is not in the `except` tuple and escapes raw), issue the
request, and classify only the caught exception kinds; an exception raised
inside `handle_exception` itself also escapes raw. -/
def get_swap_price_fetch (baseClassify : PyExc → Option DomainError)
    (chain_id : ℤ) (ev : TransportEvent) : Except Raised JVal :=
  match fibrous_get_api_base_url chain_id with
  | .error e => .error (.raw e)
  | .ok _ =>
    match make_request ev with
    | .ok v => .ok v
    | .error e =>
      if is_fetch_caught e then
        match handle_exception_model baseClassify e with
        | .ok d => .error (.classified d)
        | .error e2 => .error (.raw e2)
      else .error (.raw e)

/-- `None` or `''` - the falsy `taker_address` values (line 305). -/
def isFalsyStr : Option String → Bool
  | none => true
  | some s => s == ""

/-- The guard and fetch half of `get_swap_quote` (lines 275-338), paired
with the number of network calls it makes.  A falsy `taker_address` raises
the built-in `ValueError` at line 306 before endpoint resolution and before
any request; resolution failure also precedes the request. -/
def get_swap_quote_model (baseClassify : PyExc → Option DomainError)
    (taker_address : Option String) (chain_id : ℤ) (ev : TransportEvent) :
    Except Raised JVal × ℕ :=
  if isFalsyStr taker_address then
    (.error (.raw (.valueError "taker_address is required for Fibrous quote")), 0)
  else
    match fibrous_get_api_base_url chain_id with
    | .error e => (.error (.raw e), 0)
    | .ok _ =>
      (match make_request ev with
       | .ok v => .ok v
       | .error e =>
         if is_fetch_caught e then
           match handle_exception_model baseClassify e with
           | .ok d => .error (.classified d)
           | .error e2 => .error (.raw e2)
         else .error (.raw e), 1)

/-! ## Binary64 (Python `float`) arithmetic, exactly over the integers

The adapter computes `price = float(outputAmount) / float(sell_amount)`
(lines 228-231 and 349-352) and `int(slippage_percentage * 10000)` (lines
203-205 and 320-322).  A finite IEEE-754 binary64 value is a dyadic
rational `m * 2 ^ e`; conversion and arithmetic round the exact result to
53 significant bits, ties to even.  The model below computes that rounding
for positive fractions with integer arithmetic only; it covers the normal
range of the format, which contains every value these claims evaluate
(no overflow, no subnormals). -/

/-- Fuel-driven floor of `log2` (the fuel bounds the number of halvings, so
the definition is structural and kernel-reducible). -/
def natLog2F : ℕ → ℕ → ℕ
  | 0, _ => 0
  | f + 1, n => if 2 ≤ n then natLog2F f (n / 2) + 1 else 0

/-- Floor of `log2 n`, correct for every `n < 2 ^ 4096` (far beyond the
binary64 range). -/
def ilog2 (n : ℕ) : ℕ :=
  natLog2F 4096 n

/-- Whether `2 ^ c ≤ a / b` for a fraction of naturals and `c : ℤ`. -/
def fracGe2pow (a b : ℕ) (c : ℤ) : Bool :=
  if 0 ≤ c then decide (b * 2 ^ c.toNat ≤ a) else decide (b ≤ a * 2 ^ (-c).toNat)

/-- Floor of `log2 (a / b)` for a positive fraction: the exponent of its
binary64 representation. -/
def fracLog2 (a b : ℕ) : ℤ :=
  let c : ℤ := (ilog2 a : ℤ) - (ilog2 b : ℤ)
  if fracGe2pow a b c then c else c - 1

/-- A dyadic rational `m * 2 ^ e`: the exact value of a finite double. -/
structure Dyadic where
  m : ℤ
  e : ℤ
deriving DecidableEq

/-- Round the positive fraction `a / b` to the nearest binary64 value
(53-bit significand, ties to even), computed with integer division. -/
def roundPosFrac (a b : ℕ) : Dyadic :=
  let e := fracLog2 a b
  let num := a * 2 ^ ((52 : ℤ) - e).toNat
  let den := b * 2 ^ (e - (52 : ℤ)).toNat
  let q := num / den
  let r := num % den
  let m := if 2 * r < den then q else if den < 2 * r then q + 1
           else if q % 2 = 0 then q else q + 1
  ⟨(m : ℤ), e - 52⟩

/-- Numerator of a nonnegative dyadic as a fraction of naturals. -/
def dyFracNum (d : Dyadic) : ℕ :=
  d.m.toNat * 2 ^ d.e.toNat

/-- Denominator of a nonnegative dyadic as a fraction of naturals. -/
def dyFracDen (d : Dyadic) : ℕ :=
  2 ^ (-d.e).toNat

/-- Python `float(n)` for a nonnegative int `n`. -/
def pyFloatNat (n : ℕ) : Dyadic :=
  if n = 0 then ⟨0, 0⟩ else roundPosFrac n 1

/-- The double nearest the nonnegative decimal literal `a / b` (how a
Python source literal such as `0.015` enters the program). -/
def pyFloatFrac (a b : ℕ) : Dyadic :=
  if a = 0 then ⟨0, 0⟩ else roundPosFrac a b

/-- Binary64 division of nonnegative finite doubles (positive divisor). -/
def floatDivPos (x y : Dyadic) : Dyadic :=
  roundPosFrac (dyFracNum x * dyFracDen y) (dyFracDen x * dyFracNum y)

/-- Binary64 multiplication of nonnegative finite doubles. -/
def floatMulPos (x y : Dyadic) : Dyadic :=
  roundPosFrac (dyFracNum x * dyFracNum y) (dyFracDen x * dyFracDen y)

/-- Python `int(x)` (truncation toward zero) of a nonnegative double. -/
def floatTruncNat (d : Dyadic) : ℕ :=
  if 0 ≤ d.e then d.m.toNat * 2 ^ d.e.toNat else d.m.toNat / 2 ^ (-d.e).toNat

/-- The exact rational value of a dyadic. -/
def Dyadic.toRat (d : Dyadic) : ℚ :=
  if 0 ≤ d.e then (d.m : ℚ) * 2 ^ d.e.toNat else (d.m : ℚ) / 2 ^ (-d.e).toNat

/-! ## The price, value and slippage computations of the adapter -/

/-- Lines 228-231 (and identically 349-352):
`sell_amount_float = float(sell_amount); buy_amount_float =
float(output_amount); price = buy_amount_float / sell_amount_float if
sell_amount_float > 0 else 0`, for a body whose `outputAmount` is the
decimal string of the natural `output_amount`. -/
def fibrous_price_float (output_amount sell_amount : ℕ) : Dyadic :=
  if 0 < (pyFloatNat sell_amount).m then
    floatDivPos (pyFloatNat output_amount) (pyFloatNat sell_amount)
  else ⟨0, 0⟩

/-- Modelled from the spec: `config.NATIVE_TOKEN_ADDRESS`, the chain's
native-token sentinel address.  The `Config` class is not under `src/`;
the spec's glossary describes "the address convention representing the
chain's native currency", which is the standard all-lowercase
`0xeeee...ee` sentinel. -/
def NATIVE_TOKEN_ADDRESS : String :=
  "0xeeeeeeeeeeeeeeeeeeeeeeeeeeeeeeeeeeeeeeee"

/-- Lines 233-236: `value = '0'; if sell_token.lower() ==
self.config.NATIVE_TOKEN_ADDRESS: value = str(sell_amount)`. -/
def price_value_field (sell_token : String) (sell_amount : ℕ) : String :=
  if lowerStr sell_token == NATIVE_TOKEN_ADDRESS then toString sell_amount else "0"

/-- Lines 203-205 (and identically 320-322): `if slippage_percentage:
query['slippage'] = int(slippage_percentage * 10000)`.  The argument is a
nonnegative double; `10000` is converted exactly, the product is binary64,
and `int` truncates. -/
def slippage_query_param (slippage_percentage : Option Dyadic) : Option ℕ :=
  match slippage_percentage with
  | none => none
  | some s =>
    if s.m = 0 then none
    else some (floatTruncNat (floatMulPos s (pyFloatNat 10000)))

/-- Per the claim: the exact number of basis points of the decimal
`a / b`, "obtained by multiplying by 10,000 and truncating to integer". -/
def exact_bps (a b : ℕ) : ℕ :=
  a * 10000 / b

/-! ## The health check (`health_check`, lines 439-461) -/

/-- Lines 456-457 applied to a parsed body: `status =
response.get('status', ''); return status.lower() == 'ok' or
response.get('healthy', False)`.  `.get` on a non-dict body raises
`AttributeError`, as does `.lower()` on a non-string `status`; Python `or`
returns the raw second operand when the first is falsy. -/
def health_response_eval (body : JVal) : Except PyExc JVal :=
  match body with
  | .obj fs =>
    match jgetD fs "status" (.str "") with
    | .str s =>
      if lowerStr s == "ok" then .ok (.bool true)
      else .ok (jgetD fs "healthy" (.bool false))
    | _ => .error (.attributeError "object has no attribute lower")
  | _ => .error (.attributeError "object has no attribute get")

/-- The request and body evaluation of the `try` block. -/
def health_try (ev : TransportEvent) : Except PyExc JVal :=
  match make_request ev with
  | .error e => .error e
  | .ok body => health_response_eval body

/-- The whole `try` block: resolve the chain, issue the request, evaluate
the body. -/
def health_inner (chain_id : ℤ) (ev : TransportEvent) : Except PyExc JVal :=
  match fibrous_get_api_base_url chain_id with
  | .error e => .error e
  | .ok _ => health_try ev

/-- `FibrousProviderV1.health_check`: the catch-all `except Exception`
converts every failure to `False`; otherwise the value of the `try` body
is returned as-is. -/
def health_check_model (chain_id : ℤ) (ev : TransportEvent) : JVal :=
  match health_inner chain_id ev with
  | .ok v => v
  | .error _ => .bool false

/-- Per the claim: the body's `status` field case-insensitively equals
`"ok"`, or its `healthy` field is truthy. -/
def spec_body_healthy (v : JVal) : Bool :=
  match v with
  | .obj fs =>
    (match jget fs "status" with
     | some (.str s) => lowerStr s == "ok"
     | _ => false) || pyTruthy (jgetD fs "healthy" (.bool false))
  | _ => false

/-- The flattened observable behaviour of `health_check` for one transport
outcome: truthy exactly for a response with status < 400, a JSON object
body whose `status` entry is absent or a string, and the ok-status or
truthy-healthy condition. -/
def health_expected_ev (ev : TransportEvent) : Bool :=
  match ev with
  | .response s (.json (.obj fs)) =>
    if 400 ≤ s then false
    else
      match jgetD fs "status" (.str "") with
      | .str st => lowerStr st == "ok" || pyTruthy (jgetD fs "healthy" (.bool false))
      | _ => false
  | _ => false

/-- The flattened observable behaviour of `health_check`: truthy exactly
for a supported chain and a healthy-looking response. -/
def health_expected (chain_id : ℤ) (ev : TransportEvent) : Bool :=
  match CHAIN_ID_TO_API_BASE chain_id with
  | none => false
  | some _ => health_expected_ev ev

/-- The `status` lookup (default `''`) yields a string that is not
case-insensitively `"ok"`. -/
def statusNotOkStr (fs : List (String × JVal)) : Bool :=
  match jgetD fs "status" (.str "") with
  | .str s => !(lowerStr s == "ok")
  | _ => false

/-! ## Helper lemmas: correctness of the integer binary64 rounding -/

set_option maxRecDepth 100000

theorem natLog2F_bounds : ∀ (f n : ℕ), 0 < n → n < 2 ^ f →
    2 ^ natLog2F f n ≤ n ∧ n < 2 ^ (natLog2F f n + 1) := by
  intro f
  induction f with
  | zero => intro n h1 h2; simp at h2; omega
  | succ f ih =>
    intro n h1 h2
    rw [natLog2F]
    by_cases h : 2 ≤ n
    · simp only [if_pos h]
      have hn2 : 0 < n / 2 := Nat.div_pos h (by norm_num)
      have hlt : n / 2 < 2 ^ f := by
        rw [Nat.div_lt_iff_lt_mul (by norm_num : 0 < 2)]
        calc n < 2 ^ (f + 1) := h2
          _ = 2 ^ f * 2 := by ring
      obtain ⟨l, u⟩ := ih (n / 2) hn2 hlt
      have e1 : (2:ℕ) ^ (natLog2F f (n/2) + 1) = 2 * 2 ^ natLog2F f (n/2) := by ring
      have e2 : (2:ℕ) ^ (natLog2F f (n/2) + 1 + 1) = 2 * 2 ^ (natLog2F f (n/2) + 1) := by ring
      omega
    · simp only [if_neg h]
      have : n = 1 := by omega
      simp [this]

theorem ilog2_bounds (n : ℕ) (h1 : 0 < n) (h2 : n < 2 ^ 4096) :
    2 ^ ilog2 n ≤ n ∧ n < 2 ^ (ilog2 n + 1) :=
  natLog2F_bounds 4096 n h1 h2

theorem ilog2_lt (n m : ℕ) (h1 : 0 < n) (h2 : n < 2 ^ m) (hm : m ≤ 4096) :
    ilog2 n < m := by
  have hb := ilog2_bounds n h1 (lt_of_lt_of_le h2 (Nat.pow_le_pow_right (by norm_num) hm))
  have : 2 ^ ilog2 n < 2 ^ m := lt_of_le_of_lt hb.1 h2
  exact (Nat.pow_lt_pow_iff_right (by norm_num : 1 < 2)).mp this

theorem le_ilog2 (n m : ℕ) (h1 : 2 ^ m ≤ n) (h2 : n < 2 ^ 4096) :
    m ≤ ilog2 n := by
  have h0 : 0 < n := lt_of_lt_of_le (Nat.pos_pow_of_pos m (by norm_num) : 0 < 2 ^ m) h1
  have hb := ilog2_bounds n h0 h2
  have : 2 ^ m < 2 ^ (ilog2 n + 1) := lt_of_le_of_lt h1 hb.2
  have := (Nat.pow_lt_pow_iff_right (by norm_num : 1 < 2)).mp this
  omega

theorem fracLog2_mul_self (k b : ℕ) (hk : 0 < k) (hb : 0 < b)
    (hbig : k * b < 2 ^ 1000) : fracLog2 (k * b) b = (ilog2 k : ℤ) := by
  have hpow : (2:ℕ) ^ 1000 < 2 ^ 4096 := Nat.pow_lt_pow_right (by norm_num) (by norm_num)
  have hbig4 : k * b < 2 ^ 4096 := lt_trans hbig hpow
  have hkbig : k < 2 ^ 4096 := lt_of_le_of_lt (Nat.le_mul_of_pos_right k hb) hbig4
  have hbbig : b < 2 ^ 4096 := lt_of_le_of_lt (Nat.le_mul_of_pos_left b hk) hbig4
  have hkb : 0 < k * b := Nat.mul_pos hk hb
  obtain ⟨kl, ku⟩ := ilog2_bounds k hk hkbig
  obtain ⟨bl, bu⟩ := ilog2_bounds b hb hbbig
  have low : ilog2 k + ilog2 b ≤ ilog2 (k * b) := by
    apply le_ilog2
    · rw [pow_add]; exact Nat.mul_le_mul kl bl
    · exact hbig4
  have hkb1000 : ilog2 (k * b) < 1000 := ilog2_lt _ 1000 hkb hbig (by norm_num)
  have high : ilog2 (k * b) < ilog2 k + ilog2 b + 2 := by
    apply ilog2_lt _ _ hkb
    · calc k * b < 2 ^ (ilog2 k + 1) * 2 ^ (ilog2 b + 1) :=
            Nat.mul_lt_mul_of_lt_of_lt ku bu
        _ = 2 ^ (ilog2 k + ilog2 b + 2) := by rw [← pow_add]; ring_nf
    · omega
  rcases (by omega :
      ilog2 (k * b) = ilog2 k + ilog2 b ∨ ilog2 (k * b) = ilog2 k + ilog2 b + 1) with hc | hc
  · have hceq : (ilog2 (k * b) : ℤ) - (ilog2 b : ℤ) = (ilog2 k : ℤ) := by omega
    have htest : fracGe2pow (k * b) b (ilog2 k : ℤ) = true := by
      have hle : b * 2 ^ ((ilog2 k : ℤ)).toNat ≤ k * b := by
        rw [Int.toNat_natCast]
        calc b * 2 ^ ilog2 k = 2 ^ ilog2 k * b := by ring
          _ ≤ k * b := Nat.mul_le_mul_right b kl
      simp only [fracGe2pow, if_pos (Int.natCast_nonneg (ilog2 k)), hle, decide_eq_true_eq]
    simp only [fracLog2, hceq, htest, if_true]
  · have hceq : (ilog2 (k * b) : ℤ) - (ilog2 b : ℤ) = (ilog2 k : ℤ) + 1 := by omega
    have htest : fracGe2pow (k * b) b ((ilog2 k : ℤ) + 1) = false := by
      have hnn : (0:ℤ) ≤ (ilog2 k : ℤ) + 1 := by
        have := Int.natCast_nonneg (ilog2 k); omega
      have ht : ((ilog2 k : ℤ) + 1).toNat = ilog2 k + 1 := by omega
      have hlt : ¬ (b * 2 ^ (((ilog2 k : ℤ) + 1)).toNat ≤ k * b) := by
        rw [ht]
        push_neg
        calc k * b < 2 ^ (ilog2 k + 1) * b := (Nat.mul_lt_mul_right hb).mpr ku
          _ = b * 2 ^ (ilog2 k + 1) := by ring
      simp only [fracGe2pow, if_pos hnn, hlt, decide_eq_false_iff_not, not_false_iff,
        decide_eq_true_eq]
    simp only [fracLog2, hceq, htest, Bool.false_eq_true, if_false]
    omega

theorem roundPosFrac_exact (k b : ℕ) (hk : 0 < k) (hk53 : k < 2 ^ 53)
    (hb : 0 < b) (hbig : k * b < 2 ^ 1000) :
    roundPosFrac (k * b) b =
      ⟨((k * 2 ^ (52 - ilog2 k) : ℕ) : ℤ), (ilog2 k : ℤ) - 52⟩ := by
  have hkbig : k < 2 ^ 4096 := by
    calc k < 2 ^ 53 := hk53
      _ < 2 ^ 4096 := Nat.pow_lt_pow_right (by norm_num) (by norm_num)
  have hLk52 : ilog2 k ≤ 52 := by
    have := ilog2_lt k 53 hk hk53 (by norm_num); omega
  have hfl := fracLog2_mul_self k b hk hb hbig
  have h1 : ((52 : ℤ) - (ilog2 k : ℤ)).toNat = 52 - ilog2 k := by omega
  have h2 : ((ilog2 k : ℤ) - 52).toNat = 0 := by omega
  have hq : k * b * 2 ^ (52 - ilog2 k) / b = k * 2 ^ (52 - ilog2 k) := by
    rw [show k * b * 2 ^ (52 - ilog2 k) = k * 2 ^ (52 - ilog2 k) * b by ring]
    exact Nat.mul_div_cancel _ hb
  have hr : k * b * 2 ^ (52 - ilog2 k) % b = 0 := by
    rw [show k * b * 2 ^ (52 - ilog2 k) = k * 2 ^ (52 - ilog2 k) * b by ring]
    exact Nat.mul_mod_left _ _
  simp only [roundPosFrac, hfl, h1, h2, pow_zero, mul_one, hq, hr, mul_zero]
  rw [if_pos hb]

theorem toRat_m_zero (e : ℤ) : Dyadic.toRat ⟨0, e⟩ = 0 := by
  unfold Dyadic.toRat; split <;> simp

theorem toRat_mul_pow (k j : ℕ) :
    Dyadic.toRat ⟨((k * 2 ^ j : ℕ) : ℤ), -(j : ℤ)⟩ = k := by
  unfold Dyadic.toRat
  by_cases hj : j = 0
  · subst hj; simp
  · rw [if_neg (by omega : ¬ (0:ℤ) ≤ -(j:ℤ))]
    have ht : (-(-(j:ℤ))).toNat = j := by omega
    simp only [ht]
    push_cast
    rw [mul_div_assoc, div_self (by positivity : ((2:ℚ) ^ j) ≠ 0), mul_one]

theorem roundPosFrac_zero (b : ℕ) (hb : 0 < b) :
    roundPosFrac 0 b = ⟨0, fracLog2 0 b - 52⟩ := by
  have hden : 0 < b * 2 ^ ((fracLog2 0 b) - (52:ℤ)).toNat :=
    Nat.mul_pos hb (Nat.pos_pow_of_pos _ (by norm_num))
  simp only [roundPosFrac, Nat.zero_mul, Nat.zero_div, Nat.zero_mod, mul_zero]
  rw [if_pos hden]
  simp

theorem pyFloatNat_exact (n : ℕ) (h1 : 0 < n) (h2 : n < 2 ^ 53) :
    pyFloatNat n = ⟨((n * 2 ^ (52 - ilog2 n) : ℕ) : ℤ), (ilog2 n : ℤ) - 52⟩ := by
  rw [pyFloatNat, if_neg (by omega : ¬ n = 0)]
  have := roundPosFrac_exact n 1 h1 h2 (by norm_num)
    (by calc n * 1 = n := by ring
          _ < 2 ^ 53 := h2
          _ < 2 ^ 1000 := Nat.pow_lt_pow_right (by norm_num) (by norm_num))
  simpa using this

/-- C1 (amended).  The price returned by `get_swap_price` (and
`get_swap_quote`) is the binary64 quotient of the binary64 roundings of
`outputAmount` and `sell_amount`, not an exact decimal quotient.  When
`sell_amount == 0` the price is `0` and no division error occurs; when both
amounts are below `2 ^ 53` and `sell_amount` divides `outputAmount` with a
quotient below `2 ^ 53`, the rounding is the identity and the price is the
exact quotient; at larger magnitudes (e.g. `sell_amount = 10 ^ 24`)
precision is lost (see the counterexample). -/
theorem claim1_price_binary64_amended (output_amount sell_amount : ℕ) :
    (sell_amount = 0 → (fibrous_price_float output_amount sell_amount).toRat = 0) ∧
    (0 < sell_amount → sell_amount < 2 ^ 53 → output_amount < 2 ^ 53 →
      sell_amount ∣ output_amount → output_amount / sell_amount < 2 ^ 53 →
      (fibrous_price_float output_amount sell_amount).toRat
        = (output_amount : ℚ) / (sell_amount : ℚ)) := by
  constructor
  · intro h; subst h
    simp [fibrous_price_float, pyFloatNat, Dyadic.toRat]
  · intro hs hs53 ho53 hdvd hq53
    obtain ⟨k, hk⟩ := hdvd
    have hkval : output_amount / sell_amount = k := by
      rw [hk]; exact Nat.mul_div_cancel_left k hs
    have hk53 : k < 2 ^ 53 := by rw [hkval] at hq53; exact hq53
    set Ls := ilog2 sell_amount with hLs
    have hLs52 : Ls ≤ 52 := by
      have := ilog2_lt sell_amount 53 hs hs53 (by norm_num); omega
    have hsell_eq := pyFloatNat_exact sell_amount hs hs53
    have hguard : 0 < (pyFloatNat sell_amount).m := by
      rw [hsell_eq]
      show (0:ℤ) < ((sell_amount * 2 ^ (52 - Ls) : ℕ) : ℤ)
      exact_mod_cast Nat.mul_pos hs (Nat.pos_pow_of_pos _ (by norm_num))
    rw [fibrous_price_float, if_pos hguard]
    have hsnum : dyFracNum (pyFloatNat sell_amount) = sell_amount * 2 ^ (52 - Ls) := by
      rw [hsell_eq]
      simp only [dyFracNum, Int.toNat_natCast]
      rw [show ((Ls : ℤ) - 52).toNat = 0 by omega, pow_zero, mul_one]
    have hsden : dyFracDen (pyFloatNat sell_amount) = 2 ^ (52 - Ls) := by
      rw [hsell_eq]
      simp only [dyFracDen]
      rw [show (-((Ls : ℤ) - 52)).toNat = 52 - Ls by omega]
    by_cases hout : output_amount = 0
    · subst hout
      have honum : dyFracNum (pyFloatNat 0) = 0 := by
        simp [pyFloatNat, dyFracNum]
      have hoden : dyFracDen (pyFloatNat 0) = 1 := by
        simp [pyFloatNat, dyFracDen]
      rw [floatDivPos, honum, hoden, Nat.zero_mul, Nat.one_mul, hsnum]
      rw [roundPosFrac_zero _ (Nat.mul_pos hs (Nat.pos_pow_of_pos _ (by norm_num)))]
      rw [toRat_m_zero]
      norm_num
    · have ho : 0 < output_amount := by omega
      have hkpos : 0 < k := by
        rcases Nat.eq_zero_or_pos k with h | h
        · subst h; simp at hk; omega
        · exact h
      set Lo := ilog2 output_amount with hLo
      have hLo52 : Lo ≤ 52 := by
        have := ilog2_lt output_amount 53 ho ho53 (by norm_num); omega
      have hout_eq := pyFloatNat_exact output_amount ho ho53
      have honum : dyFracNum (pyFloatNat output_amount)
          = output_amount * 2 ^ (52 - Lo) := by
        rw [hout_eq]
        simp only [dyFracNum, Int.toNat_natCast]
        rw [show ((Lo : ℤ) - 52).toNat = 0 by omega, pow_zero, mul_one]
      have hoden : dyFracDen (pyFloatNat output_amount) = 2 ^ (52 - Lo) := by
        rw [hout_eq]
        simp only [dyFracDen]
        rw [show (-((Lo : ℤ) - 52)).toNat = 52 - Lo by omega]
      rw [floatDivPos, honum, hoden, hsnum, hsden]
      have hab : output_amount * 2 ^ (52 - Lo) * 2 ^ (52 - Ls)
          = k * (2 ^ (52 - Lo) * (sell_amount * 2 ^ (52 - Ls))) := by
        rw [hk]; ring
      rw [hab]
      have hbpos : 0 < 2 ^ (52 - Lo) * (sell_amount * 2 ^ (52 - Ls)) :=
        Nat.mul_pos (Nat.pos_pow_of_pos _ (by norm_num))
          (Nat.mul_pos hs (Nat.pos_pow_of_pos _ (by norm_num)))
      have hbig : k * (2 ^ (52 - Lo) * (sell_amount * 2 ^ (52 - Ls))) < 2 ^ 1000 := by
        calc k * (2 ^ (52 - Lo) * (sell_amount * 2 ^ (52 - Ls)))
            ≤ 2 ^ 53 * (2 ^ 52 * (2 ^ 53 * 2 ^ 52)) := by
              apply Nat.mul_le_mul (le_of_lt hk53)
              apply Nat.mul_le_mul (Nat.pow_le_pow_right (by norm_num) (by omega))
              apply Nat.mul_le_mul (le_of_lt hs53)
              exact Nat.pow_le_pow_right (by norm_num) (by omega)
          _ < 2 ^ 1000 := by norm_num
      rw [roundPosFrac_exact k _ hkpos hk53 hbpos hbig]
      have hLk52 : ilog2 k ≤ 52 := by
        have := ilog2_lt k 53 hkpos hk53 (by norm_num); omega
      rw [show ((ilog2 k : ℤ) - 52) = -((52 - ilog2 k : ℕ) : ℤ) by omega]
      rw [toRat_mul_pow k (52 - ilog2 k)]
      rw [hk]
      push_cast
      rw [mul_comm, mul_div_assoc, div_self (by
        exact_mod_cast Nat.cast_ne_zero.mpr (by omega : sell_amount ≠ 0)), mul_one]

/-- C1 (counterexample).  At `sell_amount = 10 ^ 24` and
`outputAmount = 10 ^ 24 + 1` the returned price is exactly `1` (both
operands round to the same double), while the exact decimal quotient is
not `1`: the claimed "no precision loss even at large magnitudes" fails. -/
theorem claim1_price_counterexample :
    (fibrous_price_float (10 ^ 24 + 1) (10 ^ 24)).toRat = 1 ∧
    ((10 ^ 24 + 1 : ℕ) : ℚ) / ((10 ^ 24 : ℕ) : ℚ) ≠ 1 := by
  constructor
  · rw [show fibrous_price_float (10 ^ 24 + 1) (10 ^ 24) = ⟨4503599627370496, -52⟩
        from by decide]
    norm_num [Dyadic.toRat, show Int.toNat 52 = 52 from rfl]
  · push_cast
    norm_num

/-- C1 (witness).  The spec's own end-to-end example: `outputAmount =
2000000`, `sell_amount = 1000000` gives exactly price `2`. -/
theorem claim1_price_witness :
    (fibrous_price_float 2000000 1000000).toRat
      = ((2000000 : ℕ) : ℚ) / ((1000000 : ℕ) : ℚ) :=
  (claim1_price_binary64_amended 2000000 1000000).2 (by norm_num) (by norm_num)
    (by norm_num) (by norm_num) (by norm_num)

/-- C3 (counterexample).  For the unsupported chain id `1`, resolution
raises the *built-in generic* `ValueError`, not a distinct, identifiable
UnsupportedChain error kind. -/
theorem claim3_chain_counterexample :
    fibrous_get_api_base_url 1
      = .error (.valueError ("Fibrous does not support chain_id " ++ toString (1 : ℤ))) ∧
    PyExc.isBuiltinGeneric
      (.valueError ("Fibrous does not support chain_id " ++ toString (1 : ℤ))) = true :=
  ⟨rfl, rfl⟩

/-- C3 (amended).  Every chain id in `{8453, 534352, 999}` resolves to a
distinct non-empty URL; every other id fails, but with the generic built-in
`ValueError`, not a distinct UnsupportedChain kind. -/
theorem claim3_chain_resolution_amended (chain_id : ℤ) :
    (chain_id = 8453 → fibrous_get_api_base_url chain_id = .ok FIBROUS_API_BASE) ∧
    (chain_id = 534352 → fibrous_get_api_base_url chain_id = .ok FIBROUS_API_SCROLL) ∧
    (chain_id = 999 → fibrous_get_api_base_url chain_id = .ok FIBROUS_API_HYPEREVM) ∧
    (chain_id ≠ 8453 → chain_id ≠ 534352 → chain_id ≠ 999 →
      fibrous_get_api_base_url chain_id
        = .error (.valueError ("Fibrous does not support chain_id " ++ toString chain_id))) ∧
    (FIBROUS_API_BASE ≠ "" ∧ FIBROUS_API_SCROLL ≠ "" ∧ FIBROUS_API_HYPEREVM ≠ "" ∧
      FIBROUS_API_BASE ≠ FIBROUS_API_SCROLL ∧ FIBROUS_API_BASE ≠ FIBROUS_API_HYPEREVM ∧
      FIBROUS_API_SCROLL ≠ FIBROUS_API_HYPEREVM) := by
  refine ⟨?_, ?_, ?_, ?_, by decide, by decide, by decide, by decide, by decide, by decide⟩
  · intro h; subst h; rfl
  · intro h; subst h; rfl
  · intro h; subst h; rfl
  · intro h1 h2 h3
    simp only [fibrous_get_api_base_url, CHAIN_ID_TO_API_BASE, if_neg h1, if_neg h2,
      if_neg h3]

/-- C3 (witness).  A supported and an unsupported chain id. -/
theorem claim3_chain_resolution_witness :
    fibrous_get_api_base_url 8453 = .ok FIBROUS_API_BASE ∧
    fibrous_get_api_base_url 7
      = .error (.valueError ("Fibrous does not support chain_id " ++ toString (7 : ℤ))) :=
  ⟨(claim3_chain_resolution_amended 8453).1 rfl,
   (claim3_chain_resolution_amended 7).2.2.2.1 (by norm_num) (by norm_num) (by norm_num)⟩

/-- C4.  For every casing of `sell_token`, the price response's `value`
field equals `str(sell_amount)` exactly when `sell_token` case-insensitively
matches the native-token sentinel, and `"0"` otherwise (the sentinel is
all-lowercase, so the code's one-sided `.lower()` compare is a
case-insensitive match). -/
theorem claim4_value_native_sentinel (sell_token : String) (sell_amount : ℕ) :
    (lowerStr sell_token = lowerStr NATIVE_TOKEN_ADDRESS →
      price_value_field sell_token sell_amount = toString sell_amount) ∧
    (lowerStr sell_token ≠ lowerStr NATIVE_TOKEN_ADDRESS →
      price_value_field sell_token sell_amount = "0") := by
  have hfix : lowerStr NATIVE_TOKEN_ADDRESS = NATIVE_TOKEN_ADDRESS := by decide
  constructor
  · intro h
    rw [price_value_field, if_pos]
    rw [beq_iff_eq, h, hfix]
  · intro h
    rw [price_value_field, if_neg]
    simp only [beq_iff_eq]
    intro hc
    exact h (by rw [hc, hfix])

/-- C4 (witness).  A mixed-case sentinel spelling maps to
`str(sell_amount)`; an unrelated token maps to `"0"`. -/
theorem claim4_value_native_sentinel_witness :
    price_value_field "0xEEEEeeeeEEEEeeeeEEEEeeeeEEEEeeeeEEEEeeee" 7 = toString 7 ∧
    price_value_field "0xA0b86991c6218b36c1d19D4a2e9Eb0cE3606eB48" 7 = "0" :=
  ⟨(claim4_value_native_sentinel _ 7).1 (by decide),
   (claim4_value_native_sentinel _ 7).2 (by decide)⟩

/-- C5.  Classification of a message by the provider-specific table is
deterministic and order-sensitive: the ordered `FIBROUS_ERRORS` table is
scanned case-insensitively and the first matching substring wins -
"insufficient liquidity" and "insufficient balance" always yield the
liquidity error, "cannot estimate" yields the estimation error unless an
earlier pattern also matches, "no route found" yields the liquidity error
unless the earlier "cannot estimate" matches, and no match yields the
generic aggregation-provider error. -/
theorem claim5_classifier_order (msg : String) :
    (strContainsCI msg "insufficient liquidity" = true →
      fibrous_classify msg = ⟨.insufficientLiquidity, msg⟩) ∧
    (strContainsCI msg "insufficient balance" = true →
      fibrous_classify msg = ⟨.insufficientLiquidity, msg⟩) ∧
    (strContainsCI msg "cannot estimate" = true →
      strContainsCI msg "insufficient liquidity" = false →
      strContainsCI msg "insufficient balance" = false →
      fibrous_classify msg = ⟨.estimation, msg⟩) ∧
    (strContainsCI msg "no route found" = true →
      strContainsCI msg "cannot estimate" = false →
      fibrous_classify msg = ⟨.insufficientLiquidity, msg⟩) ∧
    (strContainsCI msg "insufficient liquidity" = false →
      strContainsCI msg "insufficient balance" = false →
      strContainsCI msg "cannot estimate" = false →
      strContainsCI msg "no route found" = false →
      fibrous_classify msg = ⟨.aggregationProvider, msg⟩) := by
  simp only [fibrous_classify, FIBROUS_ERRORS, findErrClass]
  refine ⟨fun h1 => by simp [h1], fun h2 => ?_, fun h3 h1 h2 => by simp [h1, h2, h3],
    fun h4 h3 => ?_, fun h1 h2 h3 h4 => by simp [h1, h2, h3, h4]⟩
  · by_cases h1 : strContainsCI msg "insufficient liquidity" <;> simp [h1, h2]
  · by_cases h1 : strContainsCI msg "insufficient liquidity" <;>
      by_cases h2 : strContainsCI msg "insufficient balance" <;> simp [h1, h2, h3, h4]

/-- C5 (witness).  One message per classification outcome, in assorted
casings, plus an order-sensitivity case where two patterns match. -/
theorem claim5_classifier_order_witness :
    fibrous_classify "Insufficient Liquidity for this pair"
      = ⟨.insufficientLiquidity, "Insufficient Liquidity for this pair"⟩ ∧
    fibrous_classify "Cannot ESTIMATE gas" = ⟨.estimation, "Cannot ESTIMATE gas"⟩ ∧
    fibrous_classify "No route found: cannot estimate output"
      = ⟨.estimation, "No route found: cannot estimate output"⟩ ∧
    fibrous_classify "unexpected upstream failure"
      = ⟨.aggregationProvider, "unexpected upstream failure"⟩ :=
  ⟨(claim5_classifier_order _).1 (by decide),
   (claim5_classifier_order _).2.2.1 (by decide) (by decide) (by decide),
   (claim5_classifier_order _).2.2.1 (by decide) (by decide) (by decide),
   (claim5_classifier_order _).2.2.2.2 (by decide) (by decide) (by decide) (by decide)⟩

/-- C6 (counterexample).  The slippage parameter is *not* the exact
truncated basis points: for the decimal `0.0003` (3 bps exactly) the code
sends `2`, because `float(0.0003) * 10000` rounds to `2.9999999999999996`;
and for `0.015` the code sends `150` even though exact multiplication of
the float argument's value by 10000 truncates to `149`. -/
theorem claim6_slippage_counterexample :
    slippage_query_param (some (pyFloatFrac 3 10000)) = some 2 ∧
    exact_bps 3 10000 = 3 ∧
    slippage_query_param (some (pyFloatFrac 15 1000)) = some 150 ∧
    Int.floor ((pyFloatFrac 15 1000).toRat * 10000) = 149 := by
  refine ⟨by decide, by decide, by decide, ?_⟩
  rw [show pyFloatFrac 15 1000 = ⟨8646911284551352, -59⟩ from by decide]
  rw [show Dyadic.toRat ⟨8646911284551352, -59⟩ = 8646911284551352 / 2 ^ 59 from by
    norm_num [Dyadic.toRat, show Int.toNat 59 = 59 from rfl]]
  rw [Int.floor_eq_iff]
  constructor <;> norm_num

/-- C6 (amended).  A slippage of `0` or `None` sends no `slippage`
parameter at all; a given nonzero slippage sends
`int(slippage_percentage * 10000)` computed in binary64, which agrees with
the intended basis points on representative values (`0.015 -> 150`,
`0.01 -> 100`) but is not exact truncation for every input
(`0.0003 -> 2`, not 3; see the counterexample). -/
theorem claim6_slippage_amended :
    slippage_query_param none = none ∧
    (∀ e : ℤ, slippage_query_param (some ⟨0, e⟩) = none) ∧
    slippage_query_param (some (pyFloatFrac 15 1000)) = some 150 ∧
    slippage_query_param (some (pyFloatFrac 1 100)) = some 100 ∧
    slippage_query_param (some (pyFloatFrac 5 1000)) = some 50 :=
  ⟨rfl, fun e => rfl, by decide, by decide, by decide⟩

/-- C7.  `get_swap_quote` with a missing (falsy) `taker_address` fails
immediately with the caller-input `ValueError`, before endpoint resolution,
with zero network calls; and that raw caller-input error is distinct from
every classified upstream error. -/
theorem claim7_quote_taker_guard (baseClassify : PyExc → Option DomainError)
    (chain_id : ℤ) (ev : TransportEvent) :
    get_swap_quote_model baseClassify none chain_id ev
      = (.error (.raw (.valueError "taker_address is required for Fibrous quote")), 0) ∧
    get_swap_quote_model baseClassify (some "") chain_id ev
      = (.error (.raw (.valueError "taker_address is required for Fibrous quote")), 0) ∧
    (∀ d : DomainError,
      Raised.raw (.valueError "taker_address is required for Fibrous quote")
        ≠ Raised.classified d) :=
  ⟨rfl, rfl, fun _ h => Raised.noConfusion h⟩

/-- C9.  A status outside 100-599 attached to an HTTP failure is normalized
to exactly 500 before the error is re-raised for classification; a status
inside 100-599 is left unchanged; and the re-raised `ClientResponseError`
of the request executor carries exactly the normalized status. -/
theorem claim9_status_normalization (s : ℤ) (fs : List (String × JVal)) :
    (¬ (100 ≤ s ∧ s < 600) → normalize_status s = 500) ∧
    ((100 ≤ s ∧ s < 600) → normalize_status s = s) ∧
    (400 ≤ s → make_request (.response s (.json (.obj fs)))
      = .error (.clientResponseError (normalize_status s)
          (.payload (.arr [.obj (setField fs "source" (.str "proxied Fibrous API"))])))) := by
  refine ⟨?_, ?_, ?_⟩
  · intro h; simp [normalize_status, h]
  · intro h; simp [normalize_status, h]
  · intro h
    simp [make_request, addSourceField, if_pos h]

/-- C9 (witness).  Statuses 700, 0 and -1 normalize to 500, status 404
stays 404, and the executor's raised error for a status-700 response
carries status 500. -/
theorem claim9_status_normalization_witness :
    normalize_status 700 = 500 ∧ normalize_status 0 = 500 ∧
    normalize_status (-1) = 500 ∧ normalize_status 404 = 404 ∧
    make_request (.response 700 (.json (.obj [])))
      = .error (.clientResponseError (normalize_status 700)
          (.payload (.arr [.obj (setField [] "source" (.str "proxied Fibrous API"))]))) :=
  ⟨(claim9_status_normalization 700 []).1 (by norm_num),
   (claim9_status_normalization 0 []).1 (by norm_num),
   (claim9_status_normalization (-1) []).1 (by norm_num),
   (claim9_status_normalization 404 []).2.1 (by norm_num),
   (claim9_status_normalization 700 []).2.2 (by norm_num)⟩

/-- C10.  When the parsed health-check body's `status` lookup (defaulting
to `''`) yields a string that is not case-insensitively `"ok"` and the body
has a `healthy` key, `health_check` returns the `healthy` key's *raw*
value, whatever it is - not a strict boolean. -/
theorem claim10_health_raw_value (fs : List (String × JVal)) (v : JVal)
    (hstatus : statusNotOkStr fs = true)
    (hhealthy : jget fs "healthy" = some v) :
    health_check_model 8453 (.response 200 (.json (.obj fs))) = v := by
  unfold statusNotOkStr at hstatus
  have hmr : make_request (.response 200 (.json (.obj fs))) = .ok (.obj fs) := by
    simp [make_request]
  rcases h : jgetD fs "status" (.str "") with s | n | b | _ | xs | gs <;>
    rw [h] at hstatus
  case str =>
    have hs : ¬ (lowerStr s = "ok") := by simpa using hstatus
    unfold jgetD at h
    simp [health_check_model, health_inner, health_try, hmr,
      show fibrous_get_api_base_url 8453 = .ok FIBROUS_API_BASE from rfl,
      health_response_eval, h, hs, jgetD, hhealthy]
  all_goals exact absurd hstatus (by simp)

/-- C10 (witness).  `{"healthy": 1}` returns the number `1` and
`{"healthy": "yes"}` returns the string `"yes"`, not `True`. -/
theorem claim10_health_raw_value_witness :
    health_check_model 8453 (.response 200 (.json (.obj [("healthy", .num 1)])))
      = .num 1 ∧
    health_check_model 8453 (.response 200 (.json (.obj [("healthy", .str "yes")])))
      = .str "yes" :=
  ⟨claim10_health_raw_value _ _ rfl rfl, claim10_health_raw_value _ _ rfl rfl⟩

/-! ## Helper lemmas for the adapter boundary -/

theorem jget_setField_ne (fs : List (String × JVal)) (k k2 : String) (v : JVal)
    (h : k2 ≠ k) : jget (setField fs k2 v) k = jget fs k := by
  induction fs with
  | nil => simp [setField, jget, h]
  | cons p rest ih =>
    obtain ⟨k3, v3⟩ := p
    by_cases h3 : k3 = k2
    · subst h3
      simp [setField, jget, h]
    · simp [setField, jget, h3, ih]

theorem extractStrOk_gives_str (fs : List (String × JVal)) (d : String)
    (hok : extractStrOk fs = true) :
    ∃ t, jgetD (setField fs "source" (.str "proxied Fibrous API")) "error"
          (jgetD (setField fs "source" (.str "proxied Fibrous API")) "message" (.str d))
        = .str t := by
  have he : jget (setField fs "source" (.str "proxied Fibrous API")) "error"
      = jget fs "error" := jget_setField_ne fs "error" "source" _ (by decide)
  have hm : jget (setField fs "source" (.str "proxied Fibrous API")) "message"
      = jget fs "message" := jget_setField_ne fs "message" "source" _ (by decide)
  unfold extractStrOk at hok
  unfold jgetD
  rw [he, hm]
  rcases h1 : jget fs "error" with _ | v1
  · rw [h1] at hok
    rcases h2 : jget fs "message" with _ | v2
    · exact ⟨d, by simp⟩
    · rw [h2] at hok
      cases v2 <;> simp_all
  · rw [h1] at hok
    cases v1 <;> simp_all

/-- C2 (counterexample).  A 200 response whose body is not JSON makes
`ujson.loads` raise `ValueError`, which is not in the `except` tuple of
`get_swap_price` and therefore crosses the adapter boundary *raw*,
unclassified - there is no malformed-upstream-response taxonomy kind. -/
theorem claim2_parse_counterexample :
    get_swap_price_fetch (fun _ => none) 8453 (.response 200 (.malformed "<html>"))
      = .error (.raw (.valueError ("Expected object or value: <html>"))) ∧
    Raised.isClassified (.raw (.valueError ("Expected object or value: <html>"))) = false :=
  ⟨rfl, rfl⟩

/-- C2 (amended).  For every shared-classifier behaviour: a JSON parse
failure propagates as a *raw* `ValueError` (no malformed-upstream kind
exists); timeouts, dropped connections and HTTP-status failures whose
body's `error`/`message` fields are absent or strings are classified into
taxonomy kinds before crossing the boundary. -/
theorem claim2_boundary_amended (baseClassify : PyExc → Option DomainError)
    (s : ℤ) (fs : List (String × JVal)) (raw : String) :
    (get_swap_price_fetch baseClassify 8453 (.response s (.malformed raw))
      = .error (.raw (.valueError ("Expected object or value: " ++ raw)))) ∧
    (∃ d, get_swap_price_fetch baseClassify 8453 .timeout = .error (.classified d)) ∧
    (∃ d, get_swap_price_fetch baseClassify 8453 .disconnected
      = .error (.classified d)) ∧
    (400 ≤ s → extractStrOk fs = true →
      ∃ d, get_swap_price_fetch baseClassify 8453 (.response s (.json (.obj fs)))
        = .error (.classified d)) := by
  refine ⟨rfl, ?_, ?_, ?_⟩
  · cases hbc : baseClassify .timeoutError with
    | some d =>
      exact ⟨d, by simp [get_swap_price_fetch,
        show fibrous_get_api_base_url 8453 = .ok FIBROUS_API_BASE from rfl, str_of_exc, make_request, is_fetch_caught,
        handle_exception_model, hbc]⟩
    | none =>
      exact ⟨fibrous_classify "TimeoutError", by simp [get_swap_price_fetch,
        show fibrous_get_api_base_url 8453 = .ok FIBROUS_API_BASE from rfl,
        str_of_exc, make_request, is_fetch_caught, handle_exception_model, hbc,
        extract_message]⟩
  · cases hbc : baseClassify .serverDisconnected with
    | some d =>
      exact ⟨d, by simp [get_swap_price_fetch,
        show fibrous_get_api_base_url 8453 = .ok FIBROUS_API_BASE from rfl, str_of_exc, make_request, is_fetch_caught,
        handle_exception_model, hbc]⟩
    | none =>
      exact ⟨fibrous_classify "Server disconnected", by simp [get_swap_price_fetch,
        show fibrous_get_api_base_url 8453 = .ok FIBROUS_API_BASE from rfl,
        str_of_exc, make_request, is_fetch_caught, handle_exception_model, hbc,
        extract_message]⟩
  · intro h400 hok
    have hmr : make_request (.response s (.json (.obj fs)))
        = .error (.clientResponseError (normalize_status s)
            (.payload (.arr [.obj (setField fs "source" (.str "proxied Fibrous API"))]))) := by
      simp [make_request, addSourceField, if_pos h400]
    set e : PyExc := .clientResponseError (normalize_status s)
        (.payload (.arr [.obj (setField fs "source" (.str "proxied Fibrous API"))])) with he
    cases hbc : baseClassify e with
    | some d =>
      exact ⟨d, by simp [get_swap_price_fetch,
        show fibrous_get_api_base_url 8453 = .ok FIBROUS_API_BASE from rfl, str_of_exc, hmr, is_fetch_caught,
        handle_exception_model, hbc]⟩
    | none =>
      obtain ⟨t, ht⟩ := extractStrOk_gives_str fs (str_of_exc e) hok
      refine ⟨fibrous_classify t, ?_⟩
      have hext : extract_message e = .ok t := by
        simp only [he, extract_message, ht]
      simp [get_swap_price_fetch,
        show fibrous_get_api_base_url 8453 = .ok FIBROUS_API_BASE from rfl, str_of_exc, hmr, is_fetch_caught, handle_exception_model,
        hbc, hext]

/-- C2 (witness).  Concrete classified outcomes: a timeout, and a 500
response whose body carries an error string. -/
theorem claim2_boundary_witness :
    (∃ d, get_swap_price_fetch (fun _ => none) 8453 .timeout
      = .error (.classified d)) ∧
    (∃ d, get_swap_price_fetch (fun _ => none) 8453
        (.response 500 (.json (.obj [("error", .str "Insufficient liquidity")])))
      = .error (.classified d)) :=
  ⟨(claim2_boundary_amended (fun _ => none) 500 [] "").2.1,
   (claim2_boundary_amended (fun _ => none) 500
      [("error", .str "Insufficient liquidity")] "").2.2.2 (by norm_num) (by decide)⟩

/-- The catch-all around the request-and-body part of `health_check`
produces a truthy value exactly as described by `health_expected_ev`. -/
theorem health_try_catch (ev : TransportEvent) :
    pyTruthy (match health_try ev with | .ok v => v | .error _ => .bool false)
      = health_expected_ev ev := by
  cases ev with
  | timeout => rfl
  | disconnected => rfl
  | response s body =>
    cases body with
    | empty => rfl
    | malformed raw => rfl
    | json v =>
      by_cases h4 : 400 ≤ s
      · cases v <;>
          simp [health_try, make_request, addSourceField, if_pos h4,
            health_expected_ev, pyTruthy]
      · cases v with
        | obj fs =>
          simp only [health_try, make_request, if_neg h4, health_response_eval,
            health_expected_ev]
          rcases h : jgetD fs "status" (.str "") with st | n | b | _ | xs | gs <;>
            simp only [h]
          · by_cases hok : (lowerStr st == "ok") = true
            · simp [hok, pyTruthy]
            · simp only [Bool.not_eq_true] at hok
              simp [hok, pyTruthy]
          all_goals simp [pyTruthy]
        | str s2 => simp [health_try, make_request, if_neg h4, health_response_eval,
            health_expected_ev, pyTruthy]
        | num n => simp [health_try, make_request, if_neg h4, health_response_eval,
            health_expected_ev, pyTruthy]
        | bool b => simp [health_try, make_request, if_neg h4, health_response_eval,
            health_expected_ev, pyTruthy]
        | null => simp [health_try, make_request, if_neg h4, health_response_eval,
            health_expected_ev, pyTruthy]
        | arr xs => simp [health_try, make_request, if_neg h4, health_response_eval,
            health_expected_ev, pyTruthy]

/-- C8 (amended).  `health_check` never raises - every internal exception
becomes a falsy result - and its result is truthy exactly when the chain is
supported, the response has status < 400, the body is a JSON object whose
`status` entry is absent or a string, and either that string is
case-insensitively `"ok"` or the `healthy` field is truthy.  In particular
`{"status": "OK"}` and `{"healthy": true}` give `True`, and an absent
`status` with a false or absent `healthy` gives `False`; but a *non-string*
`status` (e.g. `{"status": 1, "healthy": true}`) raises `AttributeError`
internally and yields `False` even when `healthy` is truthy (see the
counterexample). -/
theorem claim8_health_check_amended :
    (∀ (chain_id : ℤ) (ev : TransportEvent),
      pyTruthy (health_check_model chain_id ev) = health_expected chain_id ev) ∧
    health_check_model 8453 (.response 200 (.json (.obj [("status", .str "OK")])))
      = .bool true ∧
    health_check_model 8453 (.response 200 (.json (.obj [("healthy", .bool true)])))
      = .bool true ∧
    health_check_model 8453 (.response 200 (.json (.obj []))) = .bool false ∧
    health_check_model 8453 (.response 200 (.json (.obj [("healthy", .bool false)])))
      = .bool false ∧
    (∀ chain_id : ℤ, health_check_model chain_id .timeout = .bool false) := by
  refine ⟨?_, rfl, rfl, rfl, rfl, ?_⟩
  · intro chain_id ev
    by_cases h1 : chain_id = 8453
    · subst h1
      have hm : health_check_model 8453 ev
          = (match health_try ev with | .ok v => v | .error _ => .bool false) := rfl
      rw [hm, health_try_catch]; rfl
    by_cases h2 : chain_id = 534352
    · subst h2
      have hm : health_check_model 534352 ev
          = (match health_try ev with | .ok v => v | .error _ => .bool false) := rfl
      rw [hm, health_try_catch]; rfl
    by_cases h3 : chain_id = 999
    · subst h3
      have hm : health_check_model 999 ev
          = (match health_try ev with | .ok v => v | .error _ => .bool false) := rfl
      rw [hm, health_try_catch]; rfl
    · have hm : health_check_model chain_id ev = .bool false := by
        simp [health_check_model, health_inner, fibrous_get_api_base_url,
          CHAIN_ID_TO_API_BASE, h1, h2, h3]
      have hx : health_expected chain_id ev = false := by
        simp [health_expected, CHAIN_ID_TO_API_BASE, h1, h2, h3]
      rw [hm, hx]; rfl
  · intro chain_id
    by_cases h1 : chain_id = 8453
    · subst h1; rfl
    by_cases h2 : chain_id = 534352
    · subst h2; rfl
    by_cases h3 : chain_id = 999
    · subst h3; rfl
    · simp [health_check_model, health_inner, fibrous_get_api_base_url,
        CHAIN_ID_TO_API_BASE, h1, h2, h3]

/-- C8 (counterexample).  For the parsed body
`{"status": 1, "healthy": true}` the claim's condition holds (the `healthy`
field is truthy), yet `health_check` returns `False`: `status.lower()` on
the number `1` raises `AttributeError`, which the catch-all converts to
`False`. -/
theorem claim8_health_check_counterexample :
    health_check_model 8453
      (.response 200 (.json (.obj [("status", .num 1), ("healthy", .bool true)])))
      = .bool false ∧
    spec_body_healthy (.obj [("status", .num 1), ("healthy", .bool true)]) = true :=
  ⟨rfl, rfl⟩
